import Mathlib

/-!
Verification of the fleet-card generator's validators and document builder.

The source is a Python module (`yaml_generator.py`) consisting of pure
string validators, a pure document-building function, and an interactive
prompting loop.  The embedding below translates those functions to Lean:

* Python `str` becomes `String`; the character-level helpers (`strip`,
  `upper`, `lower`, `isdigit`, `isalnum`) are modelled with ASCII
  semantics, which is the fragment the spec and the claims speak about.
* A validator raising `ValueError` becomes `Except String α`, the error
  message carried verbatim.
* The interactive loop's prompt/response channel becomes an explicit list
  of raw input strings; running out of inputs yields `none`.
* Python floats (the tire pressure thresholds) become `ℚ` together with a
  rendering function `pyFloatStr` standing in for `str()`; no claim
  depends on float rounding, only on the rendered threshold being spliced
  into template strings.

In template strings the brace character is written with the `\x7b`/`\x7d`
escapes.
-/

namespace FleetCard

/-- ASCII whitespace, as stripped by Python `str.strip()` (space, tab,
newline, carriage return, vertical tab, form feed). -/
def isPySpace (c : Char) : Bool :=
  c = ' ' || c = '\t' || c = '\n' || c = '\r' || c = '\x0b' || c = '\x0c'

/-- Python `str.strip()`: remove leading and trailing whitespace. -/
def pyStripList (l : List Char) : List Char :=
  ((l.dropWhile isPySpace).reverse.dropWhile isPySpace).reverse

/-- Python `str.strip()` on strings. -/
def pyStrip (s : String) : String :=
  ⟨pyStripList s.data⟩

/-- Python `str.upper()` (ASCII fragment). -/
def pyUpper (s : String) : String :=
  ⟨s.data.map Char.toUpper⟩

/-- Python `str.lower()` (ASCII fragment). -/
def pyLower (s : String) : String :=
  ⟨s.data.map Char.toLower⟩

/-- Python `str.isdigit()` (ASCII fragment): non-empty and all digits. -/
def pyIsDigit (s : String) : Bool :=
  !s.data.isEmpty && s.data.all Char.isDigit

/-- Python `str.isalnum()` (ASCII fragment): non-empty and all letters or
digits. -/
def pyIsAlnum (s : String) : Bool :=
  !s.data.isEmpty && s.data.all Char.isAlphanum

/-- Decimal value of a digit string, the value Python `int()` returns on
the all-digit strings let through by `isdigit`. -/
def decVal (s : String) : Nat :=
  s.data.foldl (fun a c => 10 * a + (c.toNat - 48)) 0

/-- `validate_year` from the source: reject unless the raw string is
exactly four digits whose value lies in `[1886, 2100]`; return the
integer. -/
def validate_year (year_str : String) : Except String Nat :=
  if !pyIsDigit year_str || year_str.length != 4 then
    Except.error "Year must be a 4-digit number."
  else
    let year := decVal year_str
    if year < 1886 || year > 2100 then
      Except.error "Year must be between 1886 and 2100."
    else
      Except.ok year

/-- `validate_non_empty` from the source: reject when the stripped string
is empty, return the stripped string. -/
def validate_non_empty (input_str : String) : Except String String :=
  if (pyStrip input_str).data.isEmpty then
    Except.error "This field cannot be empty."
  else
    Except.ok (pyStrip input_str)

/-- `validate_vin` from the source: strip and upper-case first, then
require exactly 17 alphanumeric characters. -/
def validate_vin (vin_str : String) : Except String String :=
  let v := pyUpper (pyStrip vin_str)
  if v.length != 17 then
    Except.error "VIN must be exactly 17 characters long."
  else if !pyIsAlnum v then
    Except.error "VIN must be alphanumeric."
  else
    Except.ok v

/-- `validate_license_plate` from the source: strip and upper-case, reject
the empty result. -/
def validate_license_plate (plate_str : String) : Except String String :=
  let p := pyUpper (pyStrip plate_str)
  if p.data.isEmpty then
    Except.error "License plate cannot be empty."
  else
    Except.ok p

/-- Python `s.split(sep, 1)` on a character separator, for strings known
to contain the separator: the segments before and after its first
occurrence. -/
def splitFirst (sep : Char) : List Char → List Char × List Char
  | [] => ([], [])
  | c :: rest =>
    if c = sep then ([], rest)
    else
      let p := splitFirst sep rest
      (c :: p.1, p.2)

/-- `validate_entity` from the source: strip and lower-case; require a "."
with non-empty segments before and after its first occurrence; return the
normalized string. -/
def validate_entity (entity_str : String) : Except String String :=
  let e := pyLower (pyStrip entity_str)
  if !e.data.contains '.' then
    Except.error "Entity must be in the format 'domain.entity_id', e.g., 'sensor.name'."
  else
    let p := splitFirst '.' e.data
    if p.1.isEmpty || p.2.isEmpty then
      Except.error "Entity must have both domain and entity_id."
    else
      Except.ok e

/-- The body of the source's URL regular expression after a scheme prefix:
`(\S+)$` with the end anchor taken at the true end of the string — at
least one character, all non-whitespace. -/
def urlRestOk (r : List Char) : Bool :=
  !r.isEmpty && r.all (fun c => !isPySpace c)

/-- One alternative of `^(https?|ftp)://(\S+)$` at the true end of the
string: the given scheme prefix followed by non-whitespace characters. -/
def urlSchemeMatch (p : String) (l : List Char) : Bool :=
  p.data.isPrefixOf l && urlRestOk (l.drop p.data.length)

/-- `^(https?|ftp)://(\S+)$` matched to the true end of the input. -/
def urlCoreMatch (l : List Char) : Bool :=
  urlSchemeMatch "http://" l || urlSchemeMatch "https://" l || urlSchemeMatch "ftp://" l

/-- Python `re.match` of the source's pattern `^(https?|ftp)://(\S+)$`.
In Python's `re`, `$` matches at the end of the string or just before a
newline at the end of the string, so the pattern also accepts a match
whose final character is a single trailing `\n` left after `(\S+)`. -/
def pyUrlMatch (l : List Char) : Bool :=
  urlCoreMatch l ||
    (match l.getLast? with
     | some c => c = '\n' && urlCoreMatch l.dropLast
     | none => false)

/-- `validate_url` from the source: accept exactly the strings matched by
`re.match(r"^(https?|ftp)://(\S+)$", s)`, returned unchanged. -/
def validate_url (url_str : String) : Except String String :=
  if pyUrlMatch url_str.data then
    Except.ok url_str
  else
    Except.error "Invalid URL format."

/-- `input_with_validation` from the source, the prompt/response channel
made explicit: the argument list holds the raw inputs in the order typed,
the first component of the result is the list of error lines printed (one
`print(f"Invalid input: {ve}. Please try again.")` per caught
`ValueError`), and the second is the returned value.  An empty raw input
with a default present returns the default; otherwise the validator runs,
a `ValueError` is caught, its message displayed, and the loop moves to the
next raw input.  `none` means the (finite) input list was exhausted
without the loop returning. -/
def input_with_validation {α : Type} (validation_func : String → Except String α)
    (default : Option α) : List String → List String × Option α
  | [] => ([], none)
  | user_input :: rest =>
    if user_input = "" && default.isSome then
      ([], default)
    else
      match validation_func user_input with
      | Except.ok v => ([], some v)
      | Except.error ve =>
        let p := input_with_validation validation_func default rest
        (("Invalid input: " ++ ve ++ ". Please try again.") :: p.1, p.2)

/-- Rendering of a Python float by `str()`, for the rationals standing in
for the source's floats.  The thresholds the program handles are the
wizard's defaults and user-typed pressures; on an integral value Python
renders `30.0`, which the integral branch reproduces.  No claim depends on
the rendering of a non-integral value. -/
def pyFloatStr (q : ℚ) : String :=
  if q.den = 1 then toString q.num ++ ".0" else toString q

/-- One indicator entry of the produced document (the keys of the source's
indicator dictionaries, shared by all five entries). -/
structure Indicator where
  icon : String
  entity : String
  threshold : ℚ
  state_icon : String
  title : String
  severity : String
  state_template : String
  color_template : String
deriving DecidableEq, Repr

/-- One action entry of the produced document; `service_data_entity_id` is
the single `entity_id` key of the source's nested `service_data` mapping. -/
structure CardAction where
  name : String
  icon : String
  service : String
  service_data_entity_id : String
deriving DecidableEq, Repr

/-- One sub-entry of the produced document's `range_info` mapping. -/
structure RangeEntry where
  current : String
  max : Nat
  color_template : String
deriving DecidableEq, Repr

/-- The four tire-position sensor bindings (the source's `tire_entities`
dictionary, whose keys are exactly these four positions). -/
structure TireEntities where
  front_left : String
  front_right : String
  rear_left : String
  rear_right : String
deriving DecidableEq, Repr

/-- The produced configuration document.  Python dictionaries preserve
insertion order, so the ordered mappings `range_info`, `custom_images` and
`vehicle_info` are modelled as association lists in insertion order; the
fixed top-level keys are structure fields in declaration order. -/
structure ConfigDocument where
  type : String
  name : String
  entity : String
  image : String
  make : String
  model : String
  year : Nat
  vin : String
  license_plate : String
  color : String
  indicators : List Indicator
  actions : List CardAction
  range_info : List (String × RangeEntry)
  custom_images : List (String × String)
  vehicle_info : List (String × String)
deriving DecidableEq, Repr

/-- `generate_vehicle_yaml` from the source: the pure document builder.
Template strings are built by the same concatenations as the source
(braces written `\x7b`/`\x7d`); `str(tire_min)` becomes
`pyFloatStr tire_min` and `str(year)` becomes `toString year`. -/
def generate_vehicle_yaml (make model : String) (year : Nat)
    (license_plate vin color : String) (tire_min tire_max : ℚ)
    (fuel_entity : String) (tire_entities : TireEntities)
    (battery_entity ignition_entity trouble_entity odometer_entity : String)
    (photo_url : String) : ConfigDocument :=
  let card_name := toString year ++ " " ++ make ++ " " ++ model ++ " " ++ license_plate
  { type := "custom:vehicle-status-card"
    name := card_name
    entity := "sensor.vehicle_status"
    image := photo_url
    make := make
    model := model
    year := year
    vin := vin
    license_plate := license_plate
    color := color
    indicators := [
      { icon := "mdi:fuel"
        entity := fuel_entity
        threshold := 15
        state_icon := "mdi:fuel-empty"
        title := "Low Fuel"
        severity := "medium"
        state_template := "\x7b\x7b 'LOW' if states('" ++ fuel_entity ++ "') < 15 else 'NORMAL' \x7d\x7d"
        color_template := "\x7b\x7b 'yellow' if states('" ++ fuel_entity ++ "') < 15 else 'green' \x7d\x7d" },
      { icon := "mdi:tire"
        entity := tire_entities.front_left
        threshold := tire_min
        state_icon := "mdi:tire-alert"
        title := "Low Tire Pressure Front Left"
        severity := "high"
        state_template := "\x7b\x7b 'LOW' if states('" ++ tire_entities.front_left ++ "') < " ++ pyFloatStr tire_min ++ " else 'NORMAL' \x7d\x7d"
        color_template := "\x7b\x7b 'red' if states('" ++ tire_entities.front_left ++ "') < " ++ pyFloatStr tire_min ++ " else 'green' \x7d\x7d" },
      { icon := "mdi:tire"
        entity := tire_entities.front_right
        threshold := tire_min
        state_icon := "mdi:tire-alert"
        title := "Low Tire Pressure Front Right"
        severity := "high"
        state_template := "\x7b\x7b 'LOW' if states('" ++ tire_entities.front_right ++ "') < " ++ pyFloatStr tire_min ++ " else 'NORMAL' \x7d\x7d"
        color_template := "\x7b\x7b 'red' if states('" ++ tire_entities.front_right ++ "') < " ++ pyFloatStr tire_min ++ " else 'green' \x7d\x7d" },
      { icon := "mdi:tire"
        entity := tire_entities.rear_left
        threshold := tire_min
        state_icon := "mdi:tire-alert"
        title := "Low Tire Pressure Rear Left"
        severity := "high"
        state_template := "\x7b\x7b 'LOW' if states('" ++ tire_entities.rear_left ++ "') < " ++ pyFloatStr tire_min ++ " else 'NORMAL' \x7d\x7d"
        color_template := "\x7b\x7b 'red' if states('" ++ tire_entities.rear_left ++ "') < " ++ pyFloatStr tire_min ++ " else 'green' \x7d\x7d" },
      { icon := "mdi:tire"
        entity := tire_entities.rear_right
        threshold := tire_min
        state_icon := "mdi:tire-alert"
        title := "Low Tire Pressure Rear Right"
        severity := "high"
        state_template := "\x7b\x7b 'LOW' if states('" ++ tire_entities.rear_right ++ "') < " ++ pyFloatStr tire_min ++ " else 'NORMAL' \x7d\x7d"
        color_template := "\x7b\x7b 'red' if states('" ++ tire_entities.rear_right ++ "') < " ++ pyFloatStr tire_min ++ " else 'green' \x7d\x7d" }
    ]
    actions := [
      { name := "Toggle Lock"
        icon := "mdi:lock"
        service := "lock.toggle"
        service_data_entity_id :=
          "lock." ++ toString year ++ "_" ++ pyLower make ++ "_" ++ pyLower model ++ "_"
            ++ pyLower license_plate ++ "_door_locks" }
    ]
    range_info := [
      ("fuel_level",
        { current := "\x7b\x7b states('" ++ fuel_entity ++ "') \x7d\x7d"
          max := 100
          color_template := "\x7b\x7b 'green' if states('" ++ fuel_entity ++ "') > 50 else 'yellow' if states('" ++ fuel_entity ++ "') > 20 else 'red' \x7d\x7d" }),
      ("battery",
        { current := "\x7b\x7b states('" ++ battery_entity ++ "') \x7d\x7d"
          max := 100
          color_template := "\x7b\x7b 'green' if states('" ++ battery_entity ++ "') > 50 else 'yellow' if states('" ++ battery_entity ++ "') > 20 else 'red' \x7d\x7d" })
    ]
    custom_images := [
      ("tire_image", "/local/vehicle_images/tire_normal.jpg"),
      ("tire_low_image", "/local/vehicle_images/tire_low.jpg")
    ]
    vehicle_info := [
      ("VIN", "VIN: " ++ vin),
      ("License Plate", "License Plate: " ++ license_plate),
      ("Color", color)
    ] }

/-- Transcribed from the spec's description of an indicator template: a
templated expression string that compares the named sensor binding's
current value against a threshold and selects between exactly two textual
outcomes, the first below the threshold and the second at or above it. -/
def twoWayLtTemplate (low e thr high : String) : String :=
  "\x7b\x7b '" ++ low ++ "' if states('" ++ e ++ "') < " ++ thr ++ " else '" ++ high ++ "' \x7d\x7d"

/-- Transcribed from the spec's description of a `range_info` colour
template: a three-tier expression selecting the first outcome above the
first break point, the second above the second break point, and the third
otherwise. -/
def threeTierGtTemplate (hi e t1 mid t2 lo : String) : String :=
  "\x7b\x7b '" ++ hi ++ "' if states('" ++ e ++ "') > " ++ t1 ++ " else '" ++ mid
    ++ "' if states('" ++ e ++ "') > " ++ t2 ++ " else '" ++ lo ++ "' \x7d\x7d"

/-- Transcribed from the spec: the current-value expression over a sensor
binding. -/
def statesExpr (e : String) : String :=
  "\x7b\x7b states('" ++ e ++ "') \x7d\x7d"

/-- Substring test on character lists (does `pat` occur contiguously?). -/
def containsSubL (pat : List Char) : List Char → Bool
  | [] => pat.isEmpty
  | l@(_ :: rest) => pat.isPrefixOf l || containsSubL pat rest

/-- Does the template string mention `c` as a quoted outcome literal? -/
def mentionsQuoted (s c : String) : Bool :=
  containsSubL ("'" ++ c ++ "'").data s.data

/-- How many of the three colour-severity tiers a template string can
select: the number of colours of the green/yellow/red scale it mentions as
quoted outcome literals. -/
def colorTierCount (s : String) : Nat :=
  (["green", "yellow", "red"].filter fun c => mentionsQuoted s c).length

/-- Transcribed from the claim's description of the URL pattern: an
"http", "https" or "ftp" scheme followed by "://" and then one or more
non-whitespace characters running to the end of the string. -/
def claimUrlPattern (s : String) : Prop :=
  ∃ scheme : String, ∃ rest : List Char,
    scheme ∈ (["http", "https", "ftp"] : List String) ∧
      s.data = (scheme ++ "://").data ++ rest ∧ rest ≠ [] ∧
      rest.all (fun c => !isPySpace c)

/-! Theorems.  First the bridge lemmas relating the source's inline
template concatenations to the transcribed template constructors, then one
theorem (with witness or counterexample where called for) per claim. -/

theorem fuel_state_eq (e : String) :
    "\x7b\x7b 'LOW' if states('" ++ e ++ "') < 15 else 'NORMAL' \x7d\x7d" =
      twoWayLtTemplate "LOW" e "15" "NORMAL" := by
  rw [show ("\x7b\x7b 'LOW' if states('" : String) = "\x7b\x7b '" ++ "LOW" ++ "' if states('" from rfl,
      show ("') < 15 else 'NORMAL' \x7d\x7d" : String) =
        "') < " ++ "15" ++ " else '" ++ "NORMAL" ++ "' \x7d\x7d" from rfl]
  unfold twoWayLtTemplate
  simp only [String.append_assoc]

theorem fuel_color_eq (e : String) :
    "\x7b\x7b 'yellow' if states('" ++ e ++ "') < 15 else 'green' \x7d\x7d" =
      twoWayLtTemplate "yellow" e "15" "green" := by
  rw [show ("\x7b\x7b 'yellow' if states('" : String) = "\x7b\x7b '" ++ "yellow" ++ "' if states('" from rfl,
      show ("') < 15 else 'green' \x7d\x7d" : String) =
        "') < " ++ "15" ++ " else '" ++ "green" ++ "' \x7d\x7d" from rfl]
  unfold twoWayLtTemplate
  simp only [String.append_assoc]

theorem tire_state_eq (e t : String) :
    "\x7b\x7b 'LOW' if states('" ++ e ++ "') < " ++ t ++ " else 'NORMAL' \x7d\x7d" =
      twoWayLtTemplate "LOW" e t "NORMAL" := by
  rw [show ("\x7b\x7b 'LOW' if states('" : String) = "\x7b\x7b '" ++ "LOW" ++ "' if states('" from rfl,
      show (" else 'NORMAL' \x7d\x7d" : String) = " else '" ++ "NORMAL" ++ "' \x7d\x7d" from rfl]
  unfold twoWayLtTemplate
  simp only [String.append_assoc]

theorem tire_color_eq (e t : String) :
    "\x7b\x7b 'red' if states('" ++ e ++ "') < " ++ t ++ " else 'green' \x7d\x7d" =
      twoWayLtTemplate "red" e t "green" := by
  rw [show ("\x7b\x7b 'red' if states('" : String) = "\x7b\x7b '" ++ "red" ++ "' if states('" from rfl,
      show (" else 'green' \x7d\x7d" : String) = " else '" ++ "green" ++ "' \x7d\x7d" from rfl]
  unfold twoWayLtTemplate
  simp only [String.append_assoc]

theorem range_color_eq (e : String) :
    "\x7b\x7b 'green' if states('" ++ e ++ "') > 50 else 'yellow' if states('" ++ e
        ++ "') > 20 else 'red' \x7d\x7d" =
      threeTierGtTemplate "green" e "50" "yellow" "20" "red" := by
  rw [show ("\x7b\x7b 'green' if states('" : String) = "\x7b\x7b '" ++ "green" ++ "' if states('" from rfl,
      show ("') > 50 else 'yellow' if states('" : String) =
        "') > " ++ "50" ++ " else '" ++ "yellow" ++ "' if states('" from rfl,
      show ("') > 20 else 'red' \x7d\x7d" : String) =
        "') > " ++ "20" ++ " else '" ++ "red" ++ "' \x7d\x7d" from rfl]
  unfold threeTierGtTemplate
  simp only [String.append_assoc]

/-- Claim C1, amended: the builder emits exactly five indicator entries in
the fixed order fuel, front-left, front-right, rear-left, rear-right tire.
Each indicator's two templated expression strings compare the named sensor
binding's value against the threshold — 15 for fuel, `tire_min` for each
tire; the state template selects between exactly the two outcomes "LOW"
and "NORMAL", and each colour template selects between exactly two colours
of the three-tier palette: "yellow"/"green" for fuel, "red"/"green" for
the tires (the three-way green/yellow/red selection appears only in
`range_info`, not in the indicators). -/
theorem indicators_fixed_order_and_templates (make model : String) (year : Nat)
    (license_plate vin color : String) (tire_min tire_max : ℚ) (fuelE : String)
    (te : TireEntities) (batteryE ignitionE troubleE odometerE photo_url : String) :
    (generate_vehicle_yaml make model year license_plate vin color tire_min tire_max
        fuelE te batteryE ignitionE troubleE odometerE photo_url).indicators.map
        (fun i => (i.entity, i.threshold, i.state_template, i.color_template)) =
      [(fuelE, (15 : ℚ),
          twoWayLtTemplate "LOW" fuelE "15" "NORMAL",
          twoWayLtTemplate "yellow" fuelE "15" "green"),
        (te.front_left, tire_min,
          twoWayLtTemplate "LOW" te.front_left (pyFloatStr tire_min) "NORMAL",
          twoWayLtTemplate "red" te.front_left (pyFloatStr tire_min) "green"),
        (te.front_right, tire_min,
          twoWayLtTemplate "LOW" te.front_right (pyFloatStr tire_min) "NORMAL",
          twoWayLtTemplate "red" te.front_right (pyFloatStr tire_min) "green"),
        (te.rear_left, tire_min,
          twoWayLtTemplate "LOW" te.rear_left (pyFloatStr tire_min) "NORMAL",
          twoWayLtTemplate "red" te.rear_left (pyFloatStr tire_min) "green"),
        (te.rear_right, tire_min,
          twoWayLtTemplate "LOW" te.rear_right (pyFloatStr tire_min) "NORMAL",
          twoWayLtTemplate "red" te.rear_right (pyFloatStr tire_min) "green")] := by
  simp only [generate_vehicle_yaml, List.map_cons, List.map_nil,
    fuel_state_eq, fuel_color_eq, tire_state_eq, tire_color_eq]

/-- Claim C1, counterexample to the claim as stated: on a concrete
validated record it is not the case that every indicator's colour template
selects among exactly three tiers of colour severity — the indicator
colour templates each mention only two of the three colours. -/
theorem indicators_not_three_tier_counterexample :
    ((generate_vehicle_yaml "Subaru" "Impreza" 2024 "XYZ-123" "1HGCM82633A004352" "Blue"
        30 38 "sensor.fuel_level" ⟨"sensor.tire_fl", "sensor.tire_fr", "sensor.tire_rl", "sensor.tire_rr"⟩
        "sensor.battery_level" "binary_sensor.ignition" "binary_sensor.trouble" "sensor.odometer"
        "https://example.com/default_car.jpg").indicators.all
      fun i => colorTierCount i.color_template == 3) = false := by
  decide

/-- Claim C9: the built document is independent of `tire_max` — two
records agreeing on every field except `tire_max` produce identical
documents, since `tire_max` occurs nowhere in the constructed document. -/
theorem document_independent_of_tire_max (make model : String) (year : Nat)
    (license_plate vin color : String) (tire_min tire_max tire_max' : ℚ)
    (fuelE : String) (te : TireEntities)
    (batteryE ignitionE troubleE odometerE photo_url : String) :
    generate_vehicle_yaml make model year license_plate vin color tire_min tire_max
        fuelE te batteryE ignitionE troubleE odometerE photo_url =
      generate_vehicle_yaml make model year license_plate vin color tire_min tire_max'
        fuelE te batteryE ignitionE troubleE odometerE photo_url := rfl

/-- Claim C7: the built document's `range_info` mapping contains exactly
two sub-entries, `fuel_level` then `battery`; each carries the
current-value expression over the corresponding sensor binding, a maximum
of exactly 100, and the three-tier colour template selecting "green" above
50, "yellow" above 20 and "red" otherwise. -/
theorem range_info_two_entries (make model : String) (year : Nat)
    (license_plate vin color : String) (tire_min tire_max : ℚ) (fuelE : String)
    (te : TireEntities) (batteryE ignitionE troubleE odometerE photo_url : String) :
    (generate_vehicle_yaml make model year license_plate vin color tire_min tire_max
        fuelE te batteryE ignitionE troubleE odometerE photo_url).range_info =
      [("fuel_level",
          { current := statesExpr fuelE
            max := 100
            color_template := threeTierGtTemplate "green" fuelE "50" "yellow" "20" "red" }),
        ("battery",
          { current := statesExpr batteryE
            max := 100
            color_template := threeTierGtTemplate "green" batteryE "50" "yellow" "20" "red" })] := by
  simp only [generate_vehicle_yaml, statesExpr, range_color_eq]

/-- Claim C2: for the record with year 2024, make "Subaru", model
"Impreza", any valid VIN, license plate "XYZ-123", colour "Blue",
tire thresholds 30.0/38.0, valid sensor bindings and the default photo
URL, the document's name is "2024 Subaru Impreza XYZ-123" and the single
Toggle Lock action's target entity identifier is
"lock.2024_subaru_impreza_xyz-123_door_locks". -/
theorem name_and_lock_action_scenario (vin fuelE batteryE ignitionE troubleE odometerE : String)
    (te : TireEntities)
    (hvin : validate_vin vin = Except.ok vin)
    (hf : validate_entity fuelE = Except.ok fuelE)
    (hb : validate_entity batteryE = Except.ok batteryE)
    (hi : validate_entity ignitionE = Except.ok ignitionE)
    (ht : validate_entity troubleE = Except.ok troubleE)
    (ho : validate_entity odometerE = Except.ok odometerE)
    (hfl : validate_entity te.front_left = Except.ok te.front_left)
    (hfr : validate_entity te.front_right = Except.ok te.front_right)
    (hrl : validate_entity te.rear_left = Except.ok te.rear_left)
    (hrr : validate_entity te.rear_right = Except.ok te.rear_right) :
    (generate_vehicle_yaml "Subaru" "Impreza" 2024 "XYZ-123" vin "Blue" 30 38
        fuelE te batteryE ignitionE troubleE odometerE
        "https://example.com/default_car.jpg").name = "2024 Subaru Impreza XYZ-123" ∧
      (generate_vehicle_yaml "Subaru" "Impreza" 2024 "XYZ-123" vin "Blue" 30 38
        fuelE te batteryE ignitionE troubleE odometerE
        "https://example.com/default_car.jpg").actions =
        [{ name := "Toggle Lock"
           icon := "mdi:lock"
           service := "lock.toggle"
           service_data_entity_id := "lock.2024_subaru_impreza_xyz-123_door_locks" }] :=
  ⟨rfl, rfl⟩

/-- Witness for claim C2's theorem at a concrete valid VIN and concrete
valid sensor bindings. -/
theorem name_and_lock_action_scenario_witness :
    (generate_vehicle_yaml "Subaru" "Impreza" 2024 "XYZ-123" "1HGCM82633A004352" "Blue" 30 38
        "sensor.fuel_level"
        ⟨"sensor.tire_fl", "sensor.tire_fr", "sensor.tire_rl", "sensor.tire_rr"⟩
        "sensor.battery_level" "binary_sensor.ignition" "binary_sensor.trouble" "sensor.odometer"
        "https://example.com/default_car.jpg").name = "2024 Subaru Impreza XYZ-123" ∧
      (generate_vehicle_yaml "Subaru" "Impreza" 2024 "XYZ-123" "1HGCM82633A004352" "Blue" 30 38
        "sensor.fuel_level"
        ⟨"sensor.tire_fl", "sensor.tire_fr", "sensor.tire_rl", "sensor.tire_rr"⟩
        "sensor.battery_level" "binary_sensor.ignition" "binary_sensor.trouble" "sensor.odometer"
        "https://example.com/default_car.jpg").actions =
        [{ name := "Toggle Lock"
           icon := "mdi:lock"
           service := "lock.toggle"
           service_data_entity_id := "lock.2024_subaru_impreza_xyz-123_door_locks" }] :=
  name_and_lock_action_scenario "1HGCM82633A004352" "sensor.fuel_level" "sensor.battery_level"
    "binary_sensor.ignition" "binary_sensor.trouble" "sensor.odometer"
    ⟨"sensor.tire_fl", "sensor.tire_fr", "sensor.tire_rl", "sensor.tire_rr"⟩
    rfl rfl rfl rfl rfl rfl rfl rfl rfl rfl

/-- Claim C5: the year validator succeeds exactly on the raw strings of
exactly four digits whose decimal value lies in `[1886, 2100]`, returning
that value; every other string fails. -/
theorem validate_year_spec (s : String) (n : Nat) :
    validate_year s = Except.ok n ↔
      s.length = 4 ∧ s.data.all Char.isDigit ∧ n = decVal s ∧ 1886 ≤ n ∧ n ≤ 2100 := by
  simp only [validate_year]
  split_ifs with h1 h2
  · refine iff_of_false id ?_
    rintro ⟨hlen, hdig, -⟩
    simp only [Bool.or_eq_true, Bool.not_eq_true', bne_iff_ne, ne_eq] at h1
    rcases h1 with h1 | h1
    · rw [pyIsDigit] at h1
      simp only [String.length] at hlen
      simp only [Bool.and_eq_false_iff, Bool.not_eq_false', List.isEmpty_iff] at h1
      rcases h1 with h1 | h1
      · rw [h1] at hlen; simp at hlen
      · rw [hdig] at h1; simp at h1
    · exact h1 hlen
  · refine iff_of_false id ?_
    rintro ⟨hlen, hdig, rfl, hlo, hhi⟩
    simp only [Bool.or_eq_true, decide_eq_true_eq] at h2
    omega
  · simp only [Bool.or_eq_true, Bool.not_eq_true', bne_iff_ne, ne_eq, not_or, not_not,
      decide_eq_true_eq] at h1 h2
    obtain ⟨hdig, hlen⟩ := h1
    rw [Bool.not_eq_false, pyIsDigit, Bool.and_eq_true] at hdig
    push_neg at h2
    simp only [Except.ok.injEq]
    constructor
    · rintro rfl
      exact ⟨hlen, hdig.2, rfl, by omega, by omega⟩
    · rintro ⟨-, -, rfl, -, -⟩
      rfl

/-- Claim C3, counterexample to the claim as stated: an input string of
length 18 (a leading space before 17 alphanumeric characters) on which the
VIN validator nevertheless succeeds, because the source strips whitespace
before measuring the length. -/
theorem validate_vin_length18_counterexample :
    (" 1HGCM82633A004352" : String).length ≠ 17 ∧
      validate_vin " 1HGCM82633A004352" = Except.ok "1HGCM82633A004352" :=
  ⟨by decide, rfl⟩

/-- Claim C3, amended: the VIN validator fails on every input whose
stripped, upper-cased form has length other than 17 or contains a
non-alphanumeric character; on every input whose stripped form is 17
alphanumeric characters it succeeds and returns the upper-cased stripped
string. -/
theorem validate_vin_spec (s v : String) :
    validate_vin s = Except.ok v ↔
      (pyUpper (pyStrip s)).length = 17 ∧
        (pyUpper (pyStrip s)).data.all Char.isAlphanum ∧ v = pyUpper (pyStrip s) := by
  simp only [validate_vin]
  split_ifs with h1 h2
  · refine iff_of_false id ?_
    rintro ⟨hlen, -, -⟩
    simp only [bne_iff_ne, ne_eq] at h1
    exact h1 hlen
  · refine iff_of_false id ?_
    rintro ⟨hlen, hall, -⟩
    rw [Bool.not_eq_true', pyIsAlnum, Bool.and_eq_false_iff] at h2
    rcases h2 with h2 | h2
    · rw [Bool.not_eq_false', List.isEmpty_iff] at h2
      rw [String.length, h2] at hlen
      simp at hlen
    · rw [hall] at h2; simp at h2
  · simp only [bne_iff_ne, ne_eq, not_not] at h1
    simp only [Bool.not_eq_true] at h2
    rw [Bool.not_eq_false', pyIsAlnum, Bool.and_eq_true] at h2
    simp only [Except.ok.injEq]
    constructor
    · rintro rfl
      exact ⟨h1, h2.2, rfl⟩
    · rintro ⟨-, -, rfl⟩
      rfl

/-- Claim C6: the entity validator fails on every input whose trimmed,
lower-cased form contains no "." or has an empty segment on either side of
its first "."; on every other input it succeeds and returns the trimmed,
lower-cased string. -/
theorem validate_entity_spec (s v : String) :
    validate_entity s = Except.ok v ↔
      (pyLower (pyStrip s)).data.contains '.' ∧
        (splitFirst '.' (pyLower (pyStrip s)).data).1 ≠ [] ∧
        (splitFirst '.' (pyLower (pyStrip s)).data).2 ≠ [] ∧
        v = pyLower (pyStrip s) := by
  simp only [validate_entity]
  split_ifs with h1 h2
  · refine iff_of_false id ?_
    rintro ⟨hdot, -, -, -⟩
    rw [Bool.not_eq_true', ← Bool.not_eq_true] at h1
    exact h1 hdot
  · refine iff_of_false id ?_
    rintro ⟨-, hd, he, -⟩
    simp only [Bool.or_eq_true, List.isEmpty_iff] at h2
    rcases h2 with h2 | h2
    · exact hd h2
    · exact he h2
  · simp only [Bool.not_eq_true] at h1
    rw [Bool.not_eq_false'] at h1
    simp only [Bool.or_eq_true, List.isEmpty_iff, not_or] at h2
    simp only [Except.ok.injEq]
    constructor
    · rintro rfl
      exact ⟨h1, h2.1, h2.2, rfl⟩
    · rintro ⟨-, -, -, rfl⟩
      rfl

theorem urlSchemeMatch_iff (p : String) (l : List Char) :
    urlSchemeMatch p l = true ↔
      ∃ r, l = p.data ++ r ∧ r ≠ [] ∧ r.all (fun c => !isPySpace c) := by
  unfold urlSchemeMatch urlRestOk
  constructor
  · intro h
    rw [Bool.and_eq_true] at h
    obtain ⟨hpre, hrest⟩ := h
    obtain ⟨r, hr⟩ := List.isPrefixOf_iff_prefix.mp hpre
    subst hr
    rw [List.drop_left, Bool.and_eq_true, Bool.not_eq_true'] at hrest
    refine ⟨r, rfl, ?_, hrest.2⟩
    intro h0
    rw [h0] at hrest
    simp at hrest
  · rintro ⟨r, rfl, hne, hall⟩
    rw [Bool.and_eq_true, List.drop_left, Bool.and_eq_true, Bool.not_eq_true']
    refine ⟨List.isPrefixOf_iff_prefix.mpr ⟨r, rfl⟩, ?_, hall⟩
    cases r with
    | nil => exact absurd rfl hne
    | cons a as => rfl

theorem urlCoreMatch_iff (s : String) : urlCoreMatch s.data = true ↔ claimUrlPattern s := by
  unfold urlCoreMatch claimUrlPattern
  simp only [Bool.or_eq_true, urlSchemeMatch_iff]
  constructor
  · rintro ((⟨r, hr, hne, hall⟩ | ⟨r, hr, hne, hall⟩) | ⟨r, hr, hne, hall⟩)
    · exact ⟨"http", r, by simp, hr, hne, hall⟩
    · exact ⟨"https", r, by simp, hr, hne, hall⟩
    · exact ⟨"ftp", r, by simp, hr, hne, hall⟩
  · rintro ⟨scheme, rest, hmem, hdata, hne, hall⟩
    simp only [List.mem_cons, List.mem_singleton, List.not_mem_nil] at hmem
    rcases hmem with rfl | rfl | rfl | h
    · exact Or.inl (Or.inl ⟨rest, hdata, hne, hall⟩)
    · exact Or.inl (Or.inr ⟨rest, hdata, hne, hall⟩)
    · exact Or.inr ⟨rest, hdata, hne, hall⟩
    · exact h.elim

theorem pyUrlMatch_iff (s : String) :
    pyUrlMatch s.data = true ↔
      claimUrlPattern s ∨ ∃ t : String, s = t ++ "\n" ∧ claimUrlPattern t := by
  unfold pyUrlMatch
  rw [Bool.or_eq_true, urlCoreMatch_iff]
  constructor
  · rintro (h | h)
    · exact Or.inl h
    · rcases hl : s.data.getLast? with - | c
      · rw [hl] at h; exact absurd h (by simp)
      · rw [hl, Bool.and_eq_true, decide_eq_true_eq] at h
        obtain ⟨rfl, hcore⟩ := h
        obtain ⟨l', hl'⟩ := List.getLast?_eq_some_iff.mp hl
        refine Or.inr ⟨⟨l'⟩, ?_, ?_⟩
        · apply String.ext
          rw [String.data_append, hl']
        · have hd : (⟨l'⟩ : String).data = s.data.dropLast := by
            rw [hl', List.dropLast_concat]
          rw [← urlCoreMatch_iff, hd]
          exact hcore
  · rintro (h | ⟨t, rfl, h⟩)
    · exact Or.inl h
    · refine Or.inr ?_
      have hd : (t ++ "\n").data = t.data ++ ['\n'] := by
        rw [String.data_append]
      rw [hd, List.getLast?_concat, List.dropLast_concat]
      simp only [decide_True, Bool.true_and]
      exact urlCoreMatch_iff t |>.mpr h

/-- Claim C4, amended: the URL validator succeeds, returning the string
unchanged, exactly on the strings of the claimed loose pattern — scheme
"http", "https" or "ftp", then "://", then only non-whitespace characters
— possibly followed by one single trailing newline (Python's `$` anchor
also matches just before a newline at the end of the string); it fails on
every other string. -/
theorem validate_url_spec (s v : String) :
    validate_url s = Except.ok v ↔
      v = s ∧ (claimUrlPattern s ∨ ∃ t : String, s = t ++ "\n" ∧ claimUrlPattern t) := by
  simp only [validate_url]
  split_ifs with h1
  · rw [pyUrlMatch_iff] at h1
    simp only [Except.ok.injEq]
    constructor
    · rintro rfl; exact ⟨rfl, h1⟩
    · rintro ⟨rfl, -⟩; rfl
  · refine iff_of_false id ?_
    rintro ⟨-, hpat⟩
    rw [Bool.not_eq_true, ← Bool.not_eq_true'] at h1
    exact absurd (pyUrlMatch_iff s |>.mpr hpat) (by simp_all)

/-- Claim C4, counterexample to the claim as stated: the string
"http://a" followed by a newline does not consist of scheme, "://" and
only non-whitespace characters to the end of the string, yet the URL
validator accepts it and returns it unchanged. -/
theorem validate_url_newline_counterexample :
    validate_url "http://a\n" = Except.ok "http://a\n" ∧ ¬ claimUrlPattern "http://a\n" := by
  refine ⟨rfl, ?_⟩
  rw [← urlCoreMatch_iff]
  decide

/-- Claim C8: a validation failure raised by the validator is always
caught by the prompting loop — the failure's message is printed in the
source's "Invalid input: ... Please try again." line and the same field is
re-prompted on the remaining raw inputs — and the loop never propagates a
validation error: whenever it returns a value, that value was produced by
a successful validator call on one of the raw inputs, or is the supplied
default. -/
theorem validation_error_caught_and_provenance {α : Type}
    (f : String → Except String α) (d : Option α) :
    (∀ i m rest, f i = Except.error m → (i ≠ "" ∨ d = none) →
        input_with_validation f d (i :: rest) =
          (("Invalid input: " ++ m ++ ". Please try again.") ::
              (input_with_validation f d rest).1,
            (input_with_validation f d rest).2)) ∧
      (∀ inputs r, (input_with_validation f d inputs).2 = some r →
        (∃ i ∈ inputs, f i = Except.ok r) ∨ d = some r) := by
  constructor
  · intro i m rest herr hcond
    have hc : ¬ ((decide (i = "") && d.isSome) = true) := by
      rw [Bool.and_eq_true, decide_eq_true_eq]
      rintro ⟨rfl, hsome⟩
      rcases hcond with hcond | hcond
      · exact hcond rfl
      · rw [hcond] at hsome; exact Bool.noConfusion hsome
    conv_lhs => rw [input_with_validation]
    rw [if_neg hc, herr]
  · intro inputs
    induction inputs with
    | nil =>
      intro r h
      rw [input_with_validation] at h
      exact Option.noConfusion h
    | cons i rest ih =>
      intro r h
      rw [input_with_validation] at h
      split_ifs at h with hc
      · right
        rw [Bool.and_eq_true, decide_eq_true_eq] at hc
        rcases hd : d with - | v
        · rw [hd] at hc; exact Bool.noConfusion hc.2
        · rw [hd] at h; exact h
      · rcases hf : f i with m | v
        · rw [hf] at h
          rcases ih r h with ⟨j, hj, hok⟩ | hdef
          · exact Or.inl ⟨j, List.mem_cons_of_mem i hj, hok⟩
          · exact Or.inr hdef
        · rw [hf] at h
          obtain rfl : v = r := Option.some.injEq v r ▸ h
          exact Or.inl ⟨i, List.mem_cons_self i rest, hf⟩

/-- Witness for claim C8's theorem: on the concrete raw-input sequence
["12", "2024"] with the year validator and no default, the failure on
"12" is caught and displayed and the loop moves on, and the returned value
2024 is traced back to a successful validator call. -/
theorem validation_error_caught_and_provenance_witness :
    input_with_validation validate_year none ("12" :: ["2024"]) =
        (("Invalid input: " ++ "Year must be a 4-digit number." ++ ". Please try again.") ::
            (input_with_validation validate_year none ["2024"]).1,
          (input_with_validation validate_year none ["2024"]).2) ∧
      ((∃ i ∈ ["12", "2024"], validate_year i = Except.ok 2024) ∨
        (none : Option Nat) = some 2024) :=
  ⟨(validation_error_caught_and_provenance validate_year none).1 "12"
      "Year must be a 4-digit number." ["2024"] rfl (Or.inl (by decide)),
    (validation_error_caught_and_provenance validate_year none).2 ["12", "2024"] 2024 rfl⟩

/-- Claim C10: with a default configured, an empty raw input makes the
loop return the default at once — for every validator whatsoever, so the
validator is not invoked and the default is neither validated nor
normalized — while a non-empty raw input, a whitespace-only string
included, is passed to the validator and the default is not returned at
that step: a success returns the validator's value, a failure moves to the
remaining inputs. -/
theorem default_skips_validator (α : Type) (d : α) (rest : List String) :
    (∀ f : String → Except String α,
        input_with_validation f (some d) ("" :: rest) = ([], some d)) ∧
      (∀ (f : String → Except String α) (i : String), i ≠ "" →
        input_with_validation f (some d) (i :: rest) =
          match f i with
          | Except.ok v => ([], some v)
          | Except.error m =>
            (("Invalid input: " ++ m ++ ". Please try again.") ::
                (input_with_validation f (some d) rest).1,
              (input_with_validation f (some d) rest).2)) := by
  constructor
  · intro f
    have hc : (decide (("" : String) = "") && (some d).isSome) = true := by
      rw [Bool.and_eq_true, decide_eq_true_eq]
      exact ⟨rfl, rfl⟩
    conv_lhs => rw [input_with_validation]
    rw [if_pos hc]
  · intro f i hi
    have hc : ¬ ((decide (i = "") && (some d).isSome) = true) := by
      rw [Bool.and_eq_true, decide_eq_true_eq]
      rintro ⟨rfl, -⟩
      exact hi rfl
    conv_lhs => rw [input_with_validation]
    rw [if_neg hc]

/-- Witness for claim C10's theorem: with default "Blue" for the
non-empty validator, the empty raw input returns the default at once,
while the whitespace-only raw input " " goes to the validator, fails, and
the default is not returned at that step. -/
theorem default_skips_validator_witness :
    input_with_validation validate_non_empty (some "Blue") ("" :: []) = ([], some "Blue") ∧
      input_with_validation validate_non_empty (some "Blue") (" " :: []) =
        (["Invalid input: This field cannot be empty.. Please try again."], none) := by
  refine ⟨(default_skips_validator String "Blue" []).1 validate_non_empty, ?_⟩
  rw [(default_skips_validator String "Blue" []).2 validate_non_empty " " (by decide)]
  rfl

end FleetCard
